import Mathlib

/-
  Verification of the restart-continuity core of the Anjani `Main` plugin
  (src/anjani/plugins/main.py): the shutdown path `Main.on_stop`, the startup
  reconciliation path `Main.on_start`, and the log helper `Main.send_to_log`.

  The embedding is a shallow one.  The MongoDB collection is a map from
  document identifiers to documents; BSON identifiers that occur in the code
  are either integers (the restart marker uses the literal 5) or strings (the
  session snapshot uses a sha256 hex digest).  Each lifecycle method is a pure
  function from a configuration, an environment (the responses of the external
  collaborators: clock, file system, transport) and a store to the resulting
  store, the list of observable effects in program order, and an outcome
  recording whether an exception escapes the method.
-/

namespace Anjani

/-- A BSON document identifier as used by the plugin: the marker uses the
integer literal 5, the session snapshot uses a hex-digest string. -/
inductive DocId where
  | num (n : Int)
  | str (s : String)
deriving DecidableEq

/-- A document of the shared SESSION collection.  The fields are exactly the
keys written by `Main.on_stop` and read by `Main.on_start`; a key that is not
present in a given document is `none`. -/
structure Doc where
  time : Option Int := none
  status_chat_id : Option Int := none
  status_message_id : Option Int := none
  session : Option (List Nat) := none
  date : Option Int := none
  pts : Option Int := none
  qts : Option Int := none
  seq : Option Int := none
deriving DecidableEq

/-- The SESSION collection: at most one document per identifier. -/
abbrev Store : Type := DocId → Option Doc

/-- Model of AsyncCollection.find_one with an identifier filter. -/
def find_one (st : Store) (k : DocId) : Option Doc := st k

/-- Model of AsyncCollection.delete_one with an identifier filter. -/
def delete_one (st : Store) (k : DocId) : Store :=
  fun k2 => if k2 = k then none else st k2

/-- Model of AsyncCollection.update_one with an identifier filter, a single
set-fields modification and upsert=True: the modification is applied to the
existing document, or to an empty document when none exists. -/
def update_one (st : Store) (k : DocId) (f : Doc → Doc) : Store :=
  fun k2 => if k2 = k then some (f ((st k).getD {})) else st k2

/-- A Telegram message as far as the plugin consumes it: its chat identifier
and its message identifier. -/
structure Msg where
  chat : Int
  id : Int
deriving DecidableEq

/-- Observable effects of the lifecycle methods, in program order. -/
inductive Ev where
  | findOne (k : DocId)
  | deleteOne (k : DocId)
  | upsert (k : DocId)
  | logStat (metric : String) (value : Int)
  | formatDuration (us : Int)
  | getMsgs (chat : Int) (mid : Int)
  | sendMsg (chat : Int) (text : String) (replyTo : Option Int)
  | delMsg (chat : Int) (mid : Int)
  | logInfo (text : String)
  | invokeGetState
deriving DecidableEq

/-- Whether an exception escapes the method. -/
inductive Outcome where
  | ok
  | raised
deriving DecidableEq

/-- Result of the transport's message-delete call: success, a
MessageDeleteForbidden error, or any other transport error. -/
inductive DelRes where
  | ok
  | forbidden
  | otherError
deriving DecidableEq

/-- The configuration values the plugin reads: LOG_CHANNEL (none models a
falsy/unset value) and BOT_TOKEN. -/
structure Config where
  LOG_CHANNEL : Option Int
  BOT_TOKEN : String

/-- Modelled from the spec: util.time.format_duration_us (module
anjani.util.time, which is not among the provided sources) renders a
microsecond count as a human-readable duration string.  Every claim constrains
only which integer reaches it, never its output, so a concrete total function
on Int stands in for it. -/
def format_duration_us (us : Int) : String := toString us

/-- Model of Main.send_to_log: when LOG_CHANNEL is unset, return None without
touching the transport; otherwise call send_message, which either returns the
sent message (in the configured channel, with the transport-chosen identifier)
or raises.  The returned pair is (effects, result), where an error result
models a propagating exception. -/
def send_to_log (cfg : Config) (sendOk : Bool) (sentMsgId : Int)
    (text : String) (replyTo : Option Int) : List Ev × Except Unit (Option Msg) :=
  match cfg.LOG_CHANNEL with
  | none => ([], Except.ok none)
  | some chan =>
    ([Ev.sendMsg chan text replyTo],
     if sendOk then Except.ok (some ⟨chan, sentMsgId⟩) else Except.error ())

/-- The fixed identifier of the restart marker document, the literal 5 of the
source. -/
def markerDocId : DocId := DocId.num 5

/-- The identifier of the session snapshot document: the hex digest of the
hashed bot token.  The digest function (sha256 followed by hexdigest in the
source) is abstracted as an arbitrary function to strings; every claim depends
only on the identifier being a string. -/
def sessionDocId (hash : String → String) (cfg : Config) : DocId :=
  DocId.str (hash cfg.BOT_TOKEN)

/-- Environment of a startup run: the clock reading of util.time.usec, the
behaviour of the transport send call, the identifier of the message it would
produce, and the behaviour of the message-delete call. -/
structure StartEnv where
  nowUs : Int
  sendOk : Bool
  sentMsgId : Int
  delRes : DelRes

/-- Outcome of the try/except around status_msg.delete(): only
MessageDeleteForbidden is caught; any other transport error propagates. -/
def delOutcome : DelRes → Outcome
  | DelRes.ok => Outcome.ok
  | DelRes.forbidden => Outcome.ok
  | DelRes.otherError => Outcome.raised

/-- Model of Main.on_start (src/anjani/plugins/main.py lines 41-79):
find the marker document with identifier 5; if present, extract its time,
status_chat_id and status_message_id fields, delete the document first, bail
out if any field is missing, else compute the downtime, format it, record the
downtime metric and fetch the status message, log, reply via send_to_log, and
try to delete the status message swallowing MessageDeleteForbidden.  If no
marker is present, send "Starting system..." to the log channel.  The
transport returns the requested message for get_messages (the source unwraps a
singleton list to the same effect). -/
def on_start (cfg : Config) (env : StartEnv) (st : Store) :
    Store × List Ev × Outcome :=
  match find_one st markerDocId with
  | some restart =>
    let rs_time := restart.time
    let rs_chat_id := restart.status_chat_id
    let rs_message_id := restart.status_message_id
    let st1 := delete_one st markerDocId
    match rs_chat_id, rs_message_id, rs_time with
    | some c, some m, some t =>
      let duration := env.nowUs - t
      let duration_str := format_duration_us duration
      let status_msg : Msg := ⟨c, m⟩
      let evs := [Ev.findOne markerDocId, Ev.deleteOne markerDocId,
        Ev.formatDuration duration, Ev.logStat "downtime" duration,
        Ev.getMsgs c m, Ev.logInfo ("Bot downtime " ++ duration_str)]
      match send_to_log cfg env.sendOk env.sentMsgId
          ("Bot downtime " ++ duration_str ++ ".") (some status_msg.id) with
      | (sevs, Except.error _) => (st1, evs ++ sevs, Outcome.raised)
      | (sevs, Except.ok _) =>
        (st1, evs ++ sevs ++ [Ev.delMsg status_msg.chat status_msg.id],
         delOutcome env.delRes)
    | _, _, _ =>
      (st1, [Ev.findOne markerDocId, Ev.deleteOne markerDocId], Outcome.ok)
  | none =>
    match send_to_log cfg env.sendOk env.sentMsgId "Starting system..." none with
    | (sevs, Except.ok _) => (st, Ev.findOne markerDocId :: sevs, Outcome.ok)
    | (sevs, Except.error _) => (st, Ev.findOne markerDocId :: sevs, Outcome.raised)

/-- Environment of a shutdown run: whether the local session file
anjani/anjani.session exists, its bytes, the four counters returned by the
GetState transport query, the clock reading, and the behaviour of the
transport send call. -/
structure StopEnv where
  sessionFileExists : Bool
  sessionBytes : List Nat
  date : Int
  pts : Int
  qts : Int
  seq : Int
  nowUs : Int
  sendOk : Bool
  sentMsgId : Int

/-- The set-fields modification of the session snapshot upsert. -/
def sessionSet (env : StopEnv) (d : Doc) : Doc :=
  { d with session := some env.sessionBytes, date := some env.date,
           pts := some env.pts, qts := some env.qts, seq := some env.seq }

/-- The set-fields modification of the restart marker upsert. -/
def markerSet (chatId msgId nowUs : Int) (d : Doc) : Doc :=
  { d with status_chat_id := some chatId, status_message_id := some msgId,
           time := some nowUs }

/-- Model of Main.on_stop (src/anjani/plugins/main.py lines 81-117):
return immediately when the local session file is absent; otherwise query
GetState and upsert the session snapshot keyed by the hashed bot token, then
send "Shutdowning system..." via send_to_log; if that produced no message,
return; otherwise upsert the marker document with the message's chat and
message identifiers and the current clock reading. -/
def on_stop (hash : String → String) (cfg : Config) (env : StopEnv)
    (st : Store) : Store × List Ev × Outcome :=
  if env.sessionFileExists then
    let sid := sessionDocId hash cfg
    let st1 := update_one st sid (sessionSet env)
    let evs1 := [Ev.invokeGetState, Ev.upsert sid]
    match send_to_log cfg env.sendOk env.sentMsgId "Shutdowning system..." none with
    | (sevs, Except.error _) => (st1, evs1 ++ sevs, Outcome.raised)
    | (sevs, Except.ok none) =>
      (st1, evs1 ++ sevs ++ [Ev.logInfo "Preparing to shutdown..."], Outcome.ok)
    | (sevs, Except.ok (some status_msg)) =>
      let st2 := update_one st1 markerDocId
        (markerSet status_msg.chat status_msg.id env.nowUs)
      (st2, evs1 ++ sevs ++ [Ev.logInfo "Preparing to shutdown...",
        Ev.upsert markerDocId], Outcome.ok)
  else (st, [], Outcome.ok)

/-- Whether an effect is a store write (upsert or delete). -/
def Ev.isStoreWrite : Ev → Bool
  | Ev.upsert _ => true
  | Ev.deleteOne _ => true
  | _ => false

/-- Whether an effect is a metric emission. -/
def Ev.isMetric : Ev → Bool
  | Ev.logStat _ _ => true
  | _ => false

/-- Whether an effect is a transport send call. -/
def Ev.isSend : Ev → Bool
  | Ev.sendMsg _ _ _ => true
  | _ => false

/-
  Branch characterizations of the two lifecycle methods.  Each lemma fixes one
  complete case split (marker presence and shape, configuration, transport
  behaviour) and computes the full result of the method in that case.
-/

theorem on_start_eq_absent_logoff (cfg : Config) (env : StartEnv) (st : Store)
    (h : find_one st markerDocId = none) (hl : cfg.LOG_CHANNEL = none) :
    on_start cfg env st = (st, [Ev.findOne markerDocId], Outcome.ok) := by
  simp [on_start, send_to_log, h, hl]

theorem on_start_eq_absent_sendok (cfg : Config) (env : StartEnv) (st : Store)
    (chan : Int) (h : find_one st markerDocId = none)
    (hl : cfg.LOG_CHANNEL = some chan) (hs : env.sendOk = true) :
    on_start cfg env st =
      (st, [Ev.findOne markerDocId, Ev.sendMsg chan "Starting system..." none],
       Outcome.ok) := by
  simp [on_start, send_to_log, h, hl, hs]

theorem on_start_eq_absent_sendfail (cfg : Config) (env : StartEnv) (st : Store)
    (chan : Int) (h : find_one st markerDocId = none)
    (hl : cfg.LOG_CHANNEL = some chan) (hs : env.sendOk = false) :
    on_start cfg env st =
      (st, [Ev.findOne markerDocId, Ev.sendMsg chan "Starting system..." none],
       Outcome.raised) := by
  simp [on_start, send_to_log, h, hl, hs]

theorem on_start_eq_incomplete (cfg : Config) (env : StartEnv) (st : Store)
    (d : Doc) (h : find_one st markerDocId = some d)
    (hmiss : d.status_chat_id = none ∨ d.status_message_id = none ∨
      d.time = none) :
    on_start cfg env st =
      (delete_one st markerDocId,
       [Ev.findOne markerDocId, Ev.deleteOne markerDocId], Outcome.ok) := by
  obtain ⟨dt, dc, dm, ds, dd, dp, dq, dsq⟩ := d
  simp only [Doc.status_chat_id, Doc.status_message_id, Doc.time] at hmiss
  simp only [on_start, h]
  rcases dc with _ | c
  · rfl
  rcases dm with _ | m
  · rfl
  rcases dt with _ | t
  · rfl
  simp at hmiss

/-- The full startup event list in the complete-marker case, before the delete
attempt of the status message. -/
def reconcileEvs (c m t nowUs : Int) : List Ev :=
  [Ev.findOne markerDocId, Ev.deleteOne markerDocId, Ev.formatDuration (nowUs - t),
   Ev.logStat "downtime" (nowUs - t), Ev.getMsgs c m,
   Ev.logInfo ("Bot downtime " ++ format_duration_us (nowUs - t))]

theorem on_start_eq_complete_logoff (cfg : Config) (env : StartEnv) (st : Store)
    (d : Doc) (c m t : Int) (h : find_one st markerDocId = some d)
    (hc : d.status_chat_id = some c) (hm : d.status_message_id = some m)
    (ht : d.time = some t) (hl : cfg.LOG_CHANNEL = none) :
    on_start cfg env st =
      (delete_one st markerDocId,
       reconcileEvs c m t env.nowUs ++ [Ev.delMsg c m],
       delOutcome env.delRes) := by
  simp [on_start, send_to_log, reconcileEvs, h, hc, hm, ht, hl]

theorem on_start_eq_complete_sendok (cfg : Config) (env : StartEnv) (st : Store)
    (d : Doc) (c m t chan : Int) (h : find_one st markerDocId = some d)
    (hc : d.status_chat_id = some c) (hm : d.status_message_id = some m)
    (ht : d.time = some t) (hl : cfg.LOG_CHANNEL = some chan)
    (hs : env.sendOk = true) :
    on_start cfg env st =
      (delete_one st markerDocId,
       reconcileEvs c m t env.nowUs ++
         [Ev.sendMsg chan
            ("Bot downtime " ++ format_duration_us (env.nowUs - t) ++ ".")
            (some m),
          Ev.delMsg c m],
       delOutcome env.delRes) := by
  simp [on_start, send_to_log, reconcileEvs, h, hc, hm, ht, hl, hs]

theorem on_start_eq_complete_sendfail (cfg : Config) (env : StartEnv)
    (st : Store) (d : Doc) (c m t chan : Int)
    (h : find_one st markerDocId = some d) (hc : d.status_chat_id = some c)
    (hm : d.status_message_id = some m) (ht : d.time = some t)
    (hl : cfg.LOG_CHANNEL = some chan) (hs : env.sendOk = false) :
    on_start cfg env st =
      (delete_one st markerDocId,
       reconcileEvs c m t env.nowUs ++
         [Ev.sendMsg chan
            ("Bot downtime " ++ format_duration_us (env.nowUs - t) ++ ".")
            (some m)],
       Outcome.raised) := by
  simp [on_start, send_to_log, reconcileEvs, h, hc, hm, ht, hl, hs]

theorem on_stop_eq_nofile (hash : String → String) (cfg : Config)
    (env : StopEnv) (st : Store) (h : env.sessionFileExists = false) :
    on_stop hash cfg env st = (st, [], Outcome.ok) := by
  simp [on_stop, h]

theorem on_stop_eq_logoff (hash : String → String) (cfg : Config)
    (env : StopEnv) (st : Store) (hf : env.sessionFileExists = true)
    (hl : cfg.LOG_CHANNEL = none) :
    on_stop hash cfg env st =
      (update_one st (sessionDocId hash cfg) (sessionSet env),
       [Ev.invokeGetState, Ev.upsert (sessionDocId hash cfg),
        Ev.logInfo "Preparing to shutdown..."],
       Outcome.ok) := by
  simp [on_stop, send_to_log, hf, hl]

theorem on_stop_eq_sendfail (hash : String → String) (cfg : Config)
    (env : StopEnv) (st : Store) (chan : Int)
    (hf : env.sessionFileExists = true) (hl : cfg.LOG_CHANNEL = some chan)
    (hs : env.sendOk = false) :
    on_stop hash cfg env st =
      (update_one st (sessionDocId hash cfg) (sessionSet env),
       [Ev.invokeGetState, Ev.upsert (sessionDocId hash cfg),
        Ev.sendMsg chan "Shutdowning system..." none],
       Outcome.raised) := by
  simp [on_stop, send_to_log, hf, hl, hs]

theorem on_stop_eq_sendok (hash : String → String) (cfg : Config)
    (env : StopEnv) (st : Store) (chan : Int)
    (hf : env.sessionFileExists = true) (hl : cfg.LOG_CHANNEL = some chan)
    (hs : env.sendOk = true) :
    on_stop hash cfg env st =
      (update_one (update_one st (sessionDocId hash cfg) (sessionSet env))
         markerDocId (markerSet chan env.sentMsgId env.nowUs),
       [Ev.invokeGetState, Ev.upsert (sessionDocId hash cfg),
        Ev.sendMsg chan "Shutdowning system..." none,
        Ev.logInfo "Preparing to shutdown...", Ev.upsert markerDocId],
       Outcome.ok) := by
  simp [on_stop, send_to_log, hf, hl, hs]

/-- The resulting store of a startup run: the input store when no marker was
found, the input store minus the marker document otherwise.  Every further
branch of the method leaves the store alone. -/
theorem on_start_fst (cfg : Config) (env : StartEnv) (st : Store) :
    (on_start cfg env st).1 =
      match find_one st markerDocId with
      | some _ => delete_one st markerDocId
      | none => st := by
  unfold on_start
  rcases find_one st markerDocId with _ | d
  · dsimp only
    rcases send_to_log cfg env.sendOk env.sentMsgId "Starting system..." none
      with ⟨sevs, e | v⟩ <;> rfl
  · dsimp only
    obtain ⟨dt, dc, dm, ds, dd, dp, dq, dsq⟩ := d
    rcases dc with _ | c
    · rfl
    rcases dm with _ | m
    · rfl
    rcases dt with _ | t
    · rfl
    dsimp only
    rcases send_to_log cfg env.sendOk env.sentMsgId
        ("Bot downtime " ++ format_duration_us (env.nowUs - t) ++ ".") (some m)
      with ⟨sevs, e | v⟩ <;> rfl

/-- After any startup run, the store holds no marker document. -/
theorem on_start_marker_cleared (cfg : Config) (env : StartEnv) (st : Store) :
    find_one (on_start cfg env st).1 markerDocId = none := by
  show (on_start cfg env st).1 markerDocId = none
  rw [on_start_fst]
  rcases hst : find_one st markerDocId with _ | d
  · exact hst
  · simp [delete_one]

/-
  Concrete fixtures for witnesses and counterexamples.
-/

/-- The empty collection. -/
def emptyStore : Store := fun _ => none

/-- A complete marker document with the given chat id, message id and time. -/
def markerDoc (c m t : Int) : Doc :=
  { status_chat_id := some c, status_message_id := some m, time := some t }

/-- A store holding exactly one complete marker document. -/
def markerStore (c m t : Int) : Store :=
  fun k => if k = markerDocId then some (markerDoc c m t) else none

/-- A store holding exactly one marker document that misses status_chat_id. -/
def partialMarkerStore : Store :=
  fun k =>
    if k = markerDocId then
      some { status_message_id := some 42, time := some 1000000 }
    else none

/-- A configuration with no log destination. -/
def cfgOff : Config := { LOG_CHANNEL := none, BOT_TOKEN := "token" }

/-- A configuration whose log destination is the given channel. -/
def cfgChan (chan : Int) : Config :=
  { LOG_CHANNEL := some chan, BOT_TOKEN := "token" }

/-- A stand-in digest function for concrete runs. -/
def hash0 : String → String := fun s => String.append s "-digest"

/-- Startup environment of Scenario A: clock at 1500000, transport healthy,
message deletion answered with MessageDeleteForbidden. -/
def startEnvA : StartEnv :=
  { nowUs := 1500000, sendOk := true, sentMsgId := 77,
    delRes := DelRes.forbidden }

/-- Startup environment whose clock reads less than the stored marker time. -/
def startEnvNeg : StartEnv :=
  { nowUs := 400000, sendOk := true, sentMsgId := 77, delRes := DelRes.ok }

/-- Shutdown environment with no local session file. -/
def stopEnvGone : StopEnv :=
  { sessionFileExists := false, sessionBytes := [], date := 0, pts := 0,
    qts := 0, seq := 0, nowUs := 1500000, sendOk := true, sentMsgId := 9 }

/-- Shutdown environment with a session file and a failing send call. -/
def stopEnvFail : StopEnv :=
  { sessionFileExists := true, sessionBytes := [1, 2, 3], date := 10,
    pts := 20, qts := 30, seq := 40, nowUs := 1500000, sendOk := false,
    sentMsgId := 9 }

/-- Shutdown environment with a session file and a healthy send call. -/
def stopEnvOk : StopEnv :=
  { sessionFileExists := true, sessionBytes := [1, 2, 3], date := 10,
    pts := 20, qts := 30, seq := 40, nowUs := 1500000, sendOk := true,
    sentMsgId := 9 }

/-- Membership in a take-prefix implies membership in the full list. -/
theorem mem_of_mem_take {α : Type} {x : α} :
    ∀ (n : Nat) (l : List α), x ∈ l.take n → x ∈ l := by
  intro n l
  induction l generalizing n with
  | nil => intro h; simp at h
  | cons a as ih =>
    intro h
    cases n with
    | zero => simp at h
    | succ k =>
      rw [List.take_succ_cons] at h
      rcases List.mem_cons.mp h with h | h
      · simp [h]
      · exact List.mem_cons_of_mem a (ih k h)

/-
  The claims.
-/

/-- C1: in every shutdown run with the local session file absent, no
session-snapshot document is written (no string-keyed upsert happens and every
string-keyed document is left unchanged), and whenever a status message was
successfully posted to the log sink in that run, the restart marker was still
written.  The second conjunct holds because such a run posts nothing at all:
the method returns before reaching the log sink. -/
theorem C1_shutdown_without_session_file (hash : String → String)
    (cfg : Config) (env : StopEnv) (st : Store)
    (h : env.sessionFileExists = false) :
    (∀ s : String, Ev.upsert (DocId.str s) ∉ (on_stop hash cfg env st).2.1 ∧
      (on_stop hash cfg env st).1 (DocId.str s) = st (DocId.str s)) ∧
    (∀ chan txt r, Ev.sendMsg chan txt r ∈ (on_stop hash cfg env st).2.1 →
      Ev.upsert markerDocId ∈ (on_stop hash cfg env st).2.1) := by
  rw [on_stop_eq_nofile hash cfg env st h]
  simp

/-- Witness for C1 at a concrete input. -/
theorem C1_witness :
    stopEnvGone.sessionFileExists = false ∧
    ((∀ s : String,
        Ev.upsert (DocId.str s) ∉
          (on_stop hash0 (cfgChan 1) stopEnvGone emptyStore).2.1 ∧
        (on_stop hash0 (cfgChan 1) stopEnvGone emptyStore).1 (DocId.str s) =
          emptyStore (DocId.str s)) ∧
     (∀ chan txt r,
        Ev.sendMsg chan txt r ∈
          (on_stop hash0 (cfgChan 1) stopEnvGone emptyStore).2.1 →
        Ev.upsert markerDocId ∈
          (on_stop hash0 (cfgChan 1) stopEnvGone emptyStore).2.1)) :=
  ⟨rfl, C1_shutdown_without_session_file hash0 (cfgChan 1) stopEnvGone
    emptyStore rfl⟩

/-- C2 counterexample: starting from the empty store with a configured log
channel, the second of two consecutive startup runs posts a
"Starting system..." message to the log sink, so it does perform a side
effect, refuting the claim that the second run posts no message. -/
theorem C2_counterexample :
    Ev.sendMsg 1 "Starting system..." none ∈
      (on_start (cfgChan 1) startEnvA
        (on_start (cfgChan 1) startEnvA emptyStore).1).2.1 := by
  decide

/-- C2 (amended): the second of two consecutive startup runs always observes
an absent marker, performs no store write or delete, records no metric, and
leaves the store untouched; however, when the log destination is configured it
does post the "Starting system..." message, so it is not entirely free of side
effects. -/
theorem C2_second_run_idempotent (cfg : Config) (env1 env2 : StartEnv)
    (st : Store) :
    find_one (on_start cfg env1 st).1 markerDocId = none ∧
    ((∀ e ∈ (on_start cfg env2 (on_start cfg env1 st).1).2.1,
        e.isStoreWrite = false ∧ e.isMetric = false) ∧
      (on_start cfg env2 (on_start cfg env1 st).1).1 =
        (on_start cfg env1 st).1) := by
  have h1 := on_start_marker_cleared cfg env1 st
  refine ⟨h1, ?_⟩
  rcases hl : cfg.LOG_CHANNEL with _ | chan
  · rw [on_start_eq_absent_logoff cfg env2 _ h1 hl]
    exact ⟨by simp [Ev.isStoreWrite, Ev.isMetric], rfl⟩
  · cases hs : env2.sendOk
    · rw [on_start_eq_absent_sendfail cfg env2 _ chan h1 hl hs]
      exact ⟨by simp [Ev.isStoreWrite, Ev.isMetric], rfl⟩
    · rw [on_start_eq_absent_sendok cfg env2 _ chan h1 hl hs]
      exact ⟨by simp [Ev.isStoreWrite, Ev.isMetric], rfl⟩

/-- C3: whatever the content of a present marker document (complete, partial
or empty), the startup run leaves no marker in the store, and its first two
effects are the find and the store delete of the marker, so the deletion
precedes every effect that consumes the marker's fields. -/
theorem C3_marker_delete_unconditional (cfg : Config) (env : StartEnv)
    (st : Store) (d : Doc) (h : find_one st markerDocId = some d) :
    find_one (on_start cfg env st).1 markerDocId = none ∧
    (on_start cfg env st).2.1.take 2 =
      [Ev.findOne markerDocId, Ev.deleteOne markerDocId] := by
  refine ⟨on_start_marker_cleared cfg env st, ?_⟩
  by_cases hmiss : d.status_chat_id = none ∨ d.status_message_id = none ∨
    d.time = none
  · rw [on_start_eq_incomplete cfg env st d h hmiss]
    rfl
  · push_neg at hmiss
    obtain ⟨hc0, hm0, ht0⟩ := hmiss
    rcases hc : d.status_chat_id with _ | c
    · exact absurd hc hc0
    rcases hm : d.status_message_id with _ | m
    · exact absurd hm hm0
    rcases ht : d.time with _ | t
    · exact absurd ht ht0
    rcases hl : cfg.LOG_CHANNEL with _ | chan
    · rw [on_start_eq_complete_logoff cfg env st d c m t h hc hm ht hl]
      rfl
    · cases hs : env.sendOk
      · rw [on_start_eq_complete_sendfail cfg env st d c m t chan h hc hm ht
          hl hs]
        rfl
      · rw [on_start_eq_complete_sendok cfg env st d c m t chan h hc hm ht
          hl hs]
        rfl

/-- Witness for C3 at a concrete input. -/
theorem C3_witness :
    find_one (markerStore 100 42 1000000) markerDocId =
      some (markerDoc 100 42 1000000) ∧
    (find_one (on_start (cfgChan 1) startEnvA
        (markerStore 100 42 1000000)).1 markerDocId = none ∧
      (on_start (cfgChan 1) startEnvA (markerStore 100 42 1000000)).2.1.take 2 =
        [Ev.findOne markerDocId, Ev.deleteOne markerDocId]) :=
  ⟨by decide, C3_marker_delete_unconditional (cfgChan 1) startEnvA
    (markerStore 100 42 1000000) (markerDoc 100 42 1000000) (by decide)⟩

/-- C4: when a complete marker stores time T0 and the startup clock reads T1,
reconciliation computes the downtime as the plain integer T1 - T0: exactly
this value is recorded as the "downtime" metric and is the value passed to
duration formatting, with no clamping — the statement quantifies over all T0
and T1, including runs with T1 < T0, where the value is negative. -/
theorem C4_duration_plain_integer (cfg : Config) (env : StartEnv) (st : Store)
    (d : Doc) (c m t0 : Int) (h : find_one st markerDocId = some d)
    (hc : d.status_chat_id = some c) (hm : d.status_message_id = some m)
    (ht : d.time = some t0) :
    Ev.formatDuration (env.nowUs - t0) ∈ (on_start cfg env st).2.1 ∧
    Ev.logStat "downtime" (env.nowUs - t0) ∈ (on_start cfg env st).2.1 := by
  rcases hl : cfg.LOG_CHANNEL with _ | chan
  · rw [on_start_eq_complete_logoff cfg env st d c m t0 h hc hm ht hl]
    simp [reconcileEvs]
  · cases hs : env.sendOk
    · rw [on_start_eq_complete_sendfail cfg env st d c m t0 chan h hc hm ht
        hl hs]
      simp [reconcileEvs]
    · rw [on_start_eq_complete_sendok cfg env st d c m t0 chan h hc hm ht
        hl hs]
      simp [reconcileEvs]

/-- Witness for C4 at a concrete input with a regressed clock: the stored time
is 1000000, the clock reads 400000, and the negative value -600000 is both
recorded and passed to formatting. -/
theorem C4_witness :
    (find_one (markerStore 100 42 1000000) markerDocId =
        some (markerDoc 100 42 1000000) ∧
      (markerDoc 100 42 1000000).status_chat_id = some 100 ∧
      (markerDoc 100 42 1000000).status_message_id = some 42 ∧
      (markerDoc 100 42 1000000).time = some 1000000) ∧
    (Ev.formatDuration (-600000) ∈
        (on_start (cfgChan 1) startEnvNeg (markerStore 100 42 1000000)).2.1 ∧
      Ev.logStat "downtime" (-600000) ∈
        (on_start (cfgChan 1) startEnvNeg (markerStore 100 42 1000000)).2.1) :=
  ⟨⟨by decide, rfl, rfl, rfl⟩,
   C4_duration_plain_integer (cfgChan 1) startEnvNeg
     (markerStore 100 42 1000000) (markerDoc 100 42 1000000) 100 42 1000000
     (by decide) rfl rfl rfl⟩

/-- C5: when a present marker misses its status chat id, its status message id
or its creation time, the startup run aborts silently: the marker is deleted
from the store, the run's only effects are the marker find and the marker
delete (so no message is posted and no metric is emitted), and no exception
escapes. -/
theorem C5_malformed_marker_silent (cfg : Config) (env : StartEnv)
    (st : Store) (d : Doc) (h : find_one st markerDocId = some d)
    (hmiss : d.status_chat_id = none ∨ d.status_message_id = none ∨
      d.time = none) :
    find_one (on_start cfg env st).1 markerDocId = none ∧
    (on_start cfg env st).2.1 =
      [Ev.findOne markerDocId, Ev.deleteOne markerDocId] ∧
    (on_start cfg env st).2.2 = Outcome.ok := by
  rw [on_start_eq_incomplete cfg env st d h hmiss]
  refine ⟨?_, rfl, rfl⟩
  simp [find_one, delete_one]

/-- Witness for C5 at a concrete input: a marker missing status_chat_id. -/
theorem C5_witness :
    (find_one partialMarkerStore markerDocId =
        some { status_message_id := some 42, time := some 1000000 } ∧
      ({ status_message_id := some 42, time := some 1000000 } :
        Doc).status_chat_id = none) ∧
    (find_one (on_start (cfgChan 1) startEnvA partialMarkerStore).1
        markerDocId = none ∧
      (on_start (cfgChan 1) startEnvA partialMarkerStore).2.1 =
        [Ev.findOne markerDocId, Ev.deleteOne markerDocId] ∧
      (on_start (cfgChan 1) startEnvA partialMarkerStore).2.2 = Outcome.ok) :=
  ⟨⟨by decide, rfl⟩,
   C5_malformed_marker_silent (cfgChan 1) startEnvA partialMarkerStore
     { status_message_id := some 42, time := some 1000000 } (by decide)
     (Or.inl rfl)⟩

/-- C6 counterexample: a complete marker with chat id 100, message id 42 and
time 1000000 is found, the clock reads 1500000, and the log destination is
channel 7.  The run's only transport send is the downtime reply, and it goes
to channel 7 — not to the marker's chat 100 — so the claim that the reply is
posted "to message M in chat C" fails at this input. -/
theorem C6_counterexample :
    find_one (markerStore 100 42 1000000) markerDocId =
      some (markerDoc 100 42 1000000) ∧
    ((on_start (cfgChan 7) startEnvA (markerStore 100 42 1000000)).2.1.filter
        Ev.isSend) =
      [Ev.sendMsg 7 ("Bot downtime " ++ format_duration_us 500000 ++ ".")
        (some 42)] := by
  decide

/-- C6 (amended): when a complete marker (chat C, message M, time T0) is found,
the clock reads T1, the log destination is configured to channel L and the
status send succeeds, reconciliation records the "downtime" metric with value
exactly T1 - T0, posts the downtime reply to channel L — the configured log
channel, which need not be the marker's chat C — replying to message id M,
and then attempts a best-effort delete of message M in chat C, with a
forbidden-deletion failure swallowed (no exception escapes). -/
theorem C6_reconciliation_effects (cfg : Config) (env : StartEnv) (st : Store)
    (d : Doc) (c m t0 chan : Int) (h : find_one st markerDocId = some d)
    (hc : d.status_chat_id = some c) (hm : d.status_message_id = some m)
    (ht : d.time = some t0) (hl : cfg.LOG_CHANNEL = some chan)
    (hs : env.sendOk = true) :
    (on_start cfg env st).2.1 =
      reconcileEvs c m t0 env.nowUs ++
        [Ev.sendMsg chan
           ("Bot downtime " ++ format_duration_us (env.nowUs - t0) ++ ".")
           (some m),
         Ev.delMsg c m] ∧
    Ev.logStat "downtime" (env.nowUs - t0) ∈ (on_start cfg env st).2.1 ∧
    (env.delRes = DelRes.forbidden → (on_start cfg env st).2.2 = Outcome.ok) := by
  rw [on_start_eq_complete_sendok cfg env st d c m t0 chan h hc hm ht hl hs]
  refine ⟨rfl, by simp [reconcileEvs], ?_⟩
  intro hd
  simp [hd, delOutcome]

/-- Witness for C6 (amended), the Scenario A instance: marker chat 100,
message 42, time 1000000, clock 1500000, log channel 100, delete answered
with MessageDeleteForbidden; the recorded downtime is 500000. -/
theorem C6_witness :
    (find_one (markerStore 100 42 1000000) markerDocId =
        some (markerDoc 100 42 1000000) ∧
      (cfgChan 100).LOG_CHANNEL = some 100 ∧ startEnvA.sendOk = true) ∧
    ((on_start (cfgChan 100) startEnvA (markerStore 100 42 1000000)).2.1 =
        reconcileEvs 100 42 1000000 1500000 ++
          [Ev.sendMsg 100
             ("Bot downtime " ++ format_duration_us 500000 ++ ".") (some 42),
           Ev.delMsg 100 42] ∧
      Ev.logStat "downtime" 500000 ∈
        (on_start (cfgChan 100) startEnvA (markerStore 100 42 1000000)).2.1 ∧
      (startEnvA.delRes = DelRes.forbidden →
        (on_start (cfgChan 100) startEnvA
          (markerStore 100 42 1000000)).2.2 = Outcome.ok)) :=
  ⟨⟨by decide, rfl, rfl⟩,
   C6_reconciliation_effects (cfgChan 100) startEnvA
     (markerStore 100 42 1000000) (markerDoc 100 42 1000000) 100 42 1000000
     100 (by decide) rfl rfl rfl rfl rfl⟩

/-- C7: with the log destination unset, every shutdown run finishes without
raising, writes no restart marker (no marker upsert happens and the marker
document is unchanged), and every startup run that finds no marker finishes
without any transport send call. -/
theorem C7_no_config_no_op (hash : String → String) (cfg : Config)
    (envStop : StopEnv) (envStart : StartEnv) (st st2 : Store)
    (hl : cfg.LOG_CHANNEL = none) (h2 : find_one st2 markerDocId = none) :
    ((on_stop hash cfg envStop st).2.2 = Outcome.ok ∧
      Ev.upsert markerDocId ∉ (on_stop hash cfg envStop st).2.1 ∧
      (on_stop hash cfg envStop st).1 markerDocId = st markerDocId) ∧
    ((on_start cfg envStart st2).2.2 = Outcome.ok ∧
      ∀ e ∈ (on_start cfg envStart st2).2.1, e.isSend = false) := by
  constructor
  · cases hf : envStop.sessionFileExists
    · rw [on_stop_eq_nofile hash cfg envStop st hf]
      simp
    · rw [on_stop_eq_logoff hash cfg envStop st hf hl]
      refine ⟨rfl, ?_, ?_⟩
      · simp [markerDocId, sessionDocId]
      · simp [update_one, markerDocId, sessionDocId]
  · rw [on_start_eq_absent_logoff cfg envStart st2 h2 hl]
    exact ⟨rfl, by simp [Ev.isSend]⟩

/-- Witness for C7 at a concrete input. -/
theorem C7_witness :
    (cfgOff.LOG_CHANNEL = none ∧
      find_one emptyStore markerDocId = none) ∧
    (((on_stop hash0 cfgOff stopEnvOk emptyStore).2.2 = Outcome.ok ∧
       Ev.upsert markerDocId ∉ (on_stop hash0 cfgOff stopEnvOk emptyStore).2.1 ∧
       (on_stop hash0 cfgOff stopEnvOk emptyStore).1 markerDocId =
         emptyStore markerDocId) ∧
     ((on_start cfgOff startEnvA emptyStore).2.2 = Outcome.ok ∧
       ∀ e ∈ (on_start cfgOff startEnvA emptyStore).2.1, e.isSend = false)) :=
  ⟨⟨rfl, rfl⟩,
   C7_no_config_no_op hash0 cfgOff stopEnvOk startEnvA emptyStore emptyStore
     rfl rfl⟩

/-- C8: in every shutdown run, any prefix of the effect sequence that contains
the restart-marker upsert already contains the session-snapshot upsert, so the
snapshot write happens strictly before the marker write and no prefix of the
sequence leaves a marker written without the snapshot of that shutdown
persisted. -/
theorem C8_snapshot_before_marker (hash : String → String) (cfg : Config)
    (env : StopEnv) (st : Store) (n : Nat)
    (h : Ev.upsert markerDocId ∈ (on_stop hash cfg env st).2.1.take n) :
    Ev.upsert (sessionDocId hash cfg) ∈
      (on_stop hash cfg env st).2.1.take n := by
  cases hf : env.sessionFileExists
  · rw [on_stop_eq_nofile hash cfg env st hf] at h
    simp at h
  · rcases hl : cfg.LOG_CHANNEL with _ | chan
    · rw [on_stop_eq_logoff hash cfg env st hf hl] at h
      have h2 := mem_of_mem_take _ _ h
      simp [markerDocId, sessionDocId] at h2
    · cases hs : env.sendOk
      · rw [on_stop_eq_sendfail hash cfg env st chan hf hl hs] at h
        have h2 := mem_of_mem_take _ _ h
        simp [markerDocId, sessionDocId] at h2
      · rw [on_stop_eq_sendok hash cfg env st chan hf hl hs] at h ⊢
        rcases n with _ | n
        · simp at h
        rcases n with _ | n
        · rw [List.take_succ_cons, List.take_zero] at h
          simp at h
        rcases n with _ | n
        · rw [List.take_succ_cons, List.take_succ_cons, List.take_zero] at h
          simp [markerDocId, sessionDocId] at h
        rcases n with _ | n
        · rw [List.take_succ_cons, List.take_succ_cons, List.take_succ_cons,
            List.take_zero] at h
          simp [markerDocId, sessionDocId] at h
        rcases n with _ | n
        · rw [List.take_succ_cons, List.take_succ_cons, List.take_succ_cons,
            List.take_succ_cons, List.take_zero] at h
          simp [markerDocId, sessionDocId] at h
        · simp only [List.take_succ_cons, List.take_nil]
          simp

/-- Witness for C8 at a concrete input: a full shutdown run whose first five
effects contain both writes. -/
theorem C8_witness :
    Ev.upsert markerDocId ∈
      (on_stop hash0 (cfgChan 1) stopEnvOk emptyStore).2.1.take 5 ∧
    Ev.upsert (sessionDocId hash0 (cfgChan 1)) ∈
      (on_stop hash0 (cfgChan 1) stopEnvOk emptyStore).2.1.take 5 :=
  ⟨by decide,
   C8_snapshot_before_marker hash0 (cfgChan 1) stopEnvOk emptyStore 5
     (by decide)⟩

/-- C9 counterexample: log destination configured, session file present, and
the status-send call fails: the failure escapes the shutdown handler as an
exception (even though, indeed, no marker upsert happened), refuting the
claim that the failure does not propagate as an error. -/
theorem C9_counterexample :
    (on_stop hash0 (cfgChan 1) stopEnvFail emptyStore).2.2 = Outcome.raised ∧
    Ev.upsert markerDocId ∉
      (on_stop hash0 (cfgChan 1) stopEnvFail emptyStore).2.1 := by
  decide

/-- C9 (amended): in every shutdown run with the log destination configured in
which the status-send call fails, no restart marker is written (no marker
upsert happens and the marker document is unchanged) and the session-snapshot
upsert already performed stands in the resulting store, but the send failure
propagates out of the shutdown handler as an exception instead of being
swallowed. -/
theorem C9_send_failure (hash : String → String) (cfg : Config)
    (env : StopEnv) (st : Store) (chan : Int)
    (hl : cfg.LOG_CHANNEL = some chan) (hf : env.sessionFileExists = true)
    (hs : env.sendOk = false) :
    Ev.upsert markerDocId ∉ (on_stop hash cfg env st).2.1 ∧
    (on_stop hash cfg env st).1 markerDocId = st markerDocId ∧
    (on_stop hash cfg env st).1 (sessionDocId hash cfg) =
      some (sessionSet env ((st (sessionDocId hash cfg)).getD {})) ∧
    (on_stop hash cfg env st).2.2 = Outcome.raised := by
  rw [on_stop_eq_sendfail hash cfg env st chan hf hl hs]
  refine ⟨?_, ?_, ?_, rfl⟩
  · simp [markerDocId, sessionDocId]
  · simp [update_one, markerDocId, sessionDocId]
  · simp [update_one]

/-- Witness for C9 (amended) at a concrete input. -/
theorem C9_witness :
    ((cfgChan 1).LOG_CHANNEL = some 1 ∧
      stopEnvFail.sessionFileExists = true ∧ stopEnvFail.sendOk = false) ∧
    (Ev.upsert markerDocId ∉
        (on_stop hash0 (cfgChan 1) stopEnvFail emptyStore).2.1 ∧
      (on_stop hash0 (cfgChan 1) stopEnvFail emptyStore).1 markerDocId =
        emptyStore markerDocId ∧
      (on_stop hash0 (cfgChan 1) stopEnvFail emptyStore).1
          (sessionDocId hash0 (cfgChan 1)) =
        some (sessionSet stopEnvFail
          ((emptyStore (sessionDocId hash0 (cfgChan 1))).getD {})) ∧
      (on_stop hash0 (cfgChan 1) stopEnvFail emptyStore).2.2 =
        Outcome.raised) :=
  ⟨⟨rfl, rfl, rfl⟩,
   C9_send_failure hash0 (cfgChan 1) stopEnvFail emptyStore 1 rfl rfl rfl⟩

/-- C10: for every digest function and configuration secret, the
restart-marker identifier (the integer 5) and the session-snapshot identifier
(a digest string) are distinct, so within the shared collection the snapshot
upsert leaves the marker document untouched, and the marker upsert and the
startup marker delete leave the snapshot document untouched. -/
theorem C10_identifiers_disjoint (hash : String → String) (cfg : Config)
    (st : Store) (f g : Doc → Doc) :
    sessionDocId hash cfg ≠ markerDocId ∧
    update_one st (sessionDocId hash cfg) f markerDocId = st markerDocId ∧
    update_one st markerDocId g (sessionDocId hash cfg) =
      st (sessionDocId hash cfg) ∧
    delete_one st markerDocId (sessionDocId hash cfg) =
      st (sessionDocId hash cfg) := by
  refine ⟨by simp [sessionDocId, markerDocId], ?_, ?_, ?_⟩ <;>
    simp [update_one, delete_one, sessionDocId, markerDocId]

end Anjani
